import Mathlib

/-!
Verification of the introducer client of this repository
(src/allmydata/introducer/client.py and src/allmydata/introducer/common.py)
against its natural-language specification.

Shallow-embedding conventions, stated once here:

* JSON serialization (`simplejson.dumps`/`loads`) is an external opaque
  serialize/deserialize capability.  A serialized announcement record is
  therefore identified with the record itself: the wire triple
  `(msg bytes, sig, key)` is modelled as `(AnnD, Option String, Option String)`
  and `loads`/`dumps` are the identity.  Byte strings and unicode strings are
  both modelled as `String` (the `.encode("utf-8")`/`.decode("utf-8")` calls
  are the identity in the model).
* The ECDSA layer (`allmydata.util.ecdsa`) is external.  It is modelled as a
  deterministic scheme in which a signing key is identified with its
  serialized verifying key and a signature is a deterministic function
  `mkSig` of the key and the message, which verification recomputes.
  `base32.b2a`/`a2b` are an external bijective transport encoding, modelled
  as the identity.
* Python truthiness on optional strings (`if sig_vs and key_vs:`,
  `if key_s:`) is `pyTruthy`: present and non-empty.
* `str.startswith` and the slice `s[3:]` are modelled on `String.data`
  (`pyStartswith`, `pyDrop`), which agrees with Python per code point.
* Python dictionaries are modelled as association lists: `dictGet` finds the
  first (unique) matching key, `dictInsert` mutates the value in place for an
  existing key and appends a new key at the end.  CPython 2 iterates
  dictionaries and sets in hash order; the model fixes a concrete order
  (insertion order for dicts, `List.dedup` order for sets), and any claim
  that depends on that order is treated with care at the claim level.
* Logging and the `_debug_counts` test counters are elided; exceptions are
  modelled with `Except`/`Option` error results (`PyErr`).
-/

deriving instance DecidableEq for Except

namespace Introducer

/-- The canonical announcement record (the JSON object built in
`create_announcement` / `convert_announcement_v1_to_v2`):
version, service-name, FURL, remoteinterface-name, nickname, app-versions,
my-version, oldest-supported. -/
structure AnnD where
  version : Nat
  serviceName : String
  furl : String
  riName : String
  nickname : String
  appVersions : List (String × String)
  myVersion : String
  oldestSupported : String
deriving DecidableEq

/-- The v2 wire triple `(msg, sig_vs, key_vs)`; the serialized message bytes
are identified with the record they serialize (opaque JSON codec). -/
abbrev SignedAnn := AnnD × Option String × Option String

/-- The legacy v1 6-tuple (FURL, service-name, ri-name, nickname, version,
oldest-supported), all byte strings. -/
abbrev AnnT := String × String × String × String × String × String

/-- Exceptions that can escape the modelled code paths:
`UnknownKeyError` (the spec's `UnsupportedKeyVersion`), `BadSignatureError`
(raised by `VerifyingKey.verify`), and `AssertionError` (the `assert m` in
`get_tubid_string`). -/
inductive PyErr where
  | UnknownKeyError
  | BadSignatureError
  | AssertionError
deriving DecidableEq

/-- Python truthiness of an optional string: present and non-empty. -/
def pyTruthy : Option String → Bool
  | none => false
  | some s => !s.data.isEmpty

/-- Python `s.startswith(p)`. -/
def pyStartswith (s p : String) : Bool := p.data.isPrefixOf s.data

/-- Python slice `s[n:]`. -/
def pyDrop (n : Nat) (s : String) : String := ⟨s.data.drop n⟩

/-- Rendering of a record used by the modelled signature scheme (stands in
for the serialized message bytes the real scheme signs). -/
def renderAnn (r : AnnD) : String :=
  String.intercalate "|"
    ([toString r.version, r.serviceName, r.furl, r.riName, r.nickname,
      r.myVersion, r.oldestSupported]
      ++ r.appVersions.map (fun p => p.1 ++ ":" ++ p.2))

/-- The deterministic signature of message `r` under signing key `sk`
(external ECDSA primitive, modelled). -/
def mkSig (sk : String) (r : AnnD) : String := "sig:" ++ sk ++ ":" ++ renderAnn r

/-- `sk.get_verifying_key()`: a signing key is identified with its verifying
key in the model. -/
def get_verifying_key (sk : String) : String := sk

/-- `vk.to_string()`. -/
def vk_to_string (vk : String) : String := vk

/-- `base32.b2a` (external bijective encoding, modelled as the identity). -/
def base32_b2a (bs : String) : String := bs

/-- `base32.a2b` (external bijective encoding, modelled as the identity). -/
def base32_a2b (s : String) : String := s

/-- `VerifyingKey.from_string`. -/
def VerifyingKey_from_string (s : String) : String := s

/-- `sk.sign(msg, hashfunc=SHA256)`. -/
def ecdsa_sign (sk : String) (r : AnnD) : String := mkSig sk r

/-- `key.verify(sig, msg, hashfunc=SHA256)`: recomputes the deterministic
signature.  In the source this raises `BadSignatureError` on mismatch. -/
def ecdsa_verify (vk sigBytes : String) (r : AnnD) : Bool := sigBytes == mkSig vk r

/-- `common.sign(ann_d, sk)`: returns `(msg, None, None)` for a falsy key and
`(msg, "v0-"+b2a(sig), "v0-"+b2a(vk))` otherwise. -/
def sign (ann_d : AnnD) (sk : Option String) : SignedAnn :=
  match sk with
  | none => (ann_d, none, none)
  | some k =>
      (ann_d, some ("v0-" ++ base32_b2a (ecdsa_sign k ann_d)),
              some ("v0-" ++ base32_b2a (vk_to_string (get_verifying_key k))))

/-- `common.unsign(ann_t)`: when both signature and key are truthy, checks
the "v0-" version markers (raising `UnknownKeyError` otherwise), then
verifies the signature with the embedded key (raising `BadSignatureError` on
failure) and returns the record with the key token stripped of its marker;
when not both truthy, returns the record unsigned. -/
def unsign (ann_t : SignedAnn) : Except PyErr (AnnD × Option String) :=
  let (msg_s, sig_vs, key_vs) := ann_t
  if pyTruthy sig_vs && pyTruthy key_vs then
    if pyStartswith (sig_vs.getD "") "v0-" then
      if pyStartswith (key_vs.getD "") "v0-" then
        let key_s := pyDrop 3 (key_vs.getD "")
        let key := VerifyingKey_from_string (base32_a2b key_s)
        if ecdsa_verify key (base32_a2b (pyDrop 3 (sig_vs.getD ""))) msg_s then
          Except.ok (msg_s, some key_s)
        else
          Except.error PyErr.BadSignatureError
      else Except.error PyErr.UnknownKeyError
    else Except.error PyErr.UnknownKeyError
  else Except.ok (msg_s, none)

/-- `\w` of Python 2 `re` without `re.UNICODE`: ASCII letters, digits, `_`. -/
def isWordChar (c : Char) : Bool := c.isAlphanum || c == '_'

/-- `get_tubid_string(furl)`: `re.match(r'pb://(\w+)@', furl)` followed by
`m.group(1).lower()`; `none` models the `assert m` failure. -/
def get_tubid_string (furl : String) : Option String :=
  if pyStartswith furl "pb://" then
    let rest := furl.data.drop 5
    let w := rest.takeWhile isWordChar
    if !w.isEmpty && (rest.dropWhile isWordChar).head? == some '@' then
      some ⟨w.map Char.toLower⟩
    else none
  else none

/-- `get_tubid_string_from_ann_d(ann_d)`. -/
def get_tubid_string_from_ann_d (ann_d : AnnD) : Option String :=
  get_tubid_string ann_d.furl

/-- `common.make_index(ann_d, key_s)`: `(service-name, key_s)` for a truthy
key, else `(service-name, tubid)`; `none` models the locator-format assertion
failure. -/
def make_index (ann_d : AnnD) (key_s : Option String) : Option (String × String) :=
  let service_name := ann_d.serviceName
  if pyTruthy key_s then
    some (service_name, key_s.getD "")
  else
    (get_tubid_string_from_ann_d ann_d).map (fun tubid => (service_name, tubid))

/-- `convert_announcement_v1_to_v2(ann_t)`: wraps the legacy 6-tuple into an
unsigned v2 triple whose record has version 0 and empty app-versions. -/
def convert_announcement_v1_to_v2 (ann_t : AnnT) : SignedAnn :=
  let (furl, service_name, ri_name, nickname, ver, oldest) := ann_t
  ({ version := 0, serviceName := service_name, furl := furl,
     riName := ri_name, nickname := nickname, appVersions := [],
     myVersion := ver, oldestSupported := oldest }, none, none)

/-- `convert_announcement_v2_to_v1(ann_v2)`: extracts the legacy 6-tuple;
`none` models the `assert ann_d["version"] == 0` failure. -/
def convert_announcement_v2_to_v1 (ann_v2 : SignedAnn) : Option AnnT :=
  let (ann_d, _sig, _key) := ann_v2
  if ann_d.version = 0 then
    some (ann_d.furl, ann_d.serviceName, ann_d.riName, ann_d.nickname,
          ann_d.myVersion, ann_d.oldestSupported)
  else none

/-! ### The client state machine (`IntroducerClient`) -/

/-- Python `d.get(k)` on a dict modelled as an association list. -/
def dictGet {κ ν : Type} [DecidableEq κ] : List (κ × ν) → κ → Option ν
  | [], _ => none
  | p :: rest, k => if p.1 = k then some p.2 else dictGet rest k

/-- Python `d[k] = v`: updates the value in place for an existing key
(keeping the original key object), appends a new key. -/
def dictInsert {κ ν : Type} [DecidableEq κ] : List (κ × ν) → κ → ν → List (κ × ν)
  | [], k, v => [(k, v)]
  | p :: rest, k, v => if p.1 = k then (p.1, v) :: rest else p :: dictInsert rest k v

/-- Python `s.add(x)` on a set modelled as a duplicate-free list. -/
def pySetAdd {α : Type} [DecidableEq α] (l : List α) (x : α) : List α :=
  if x ∈ l then l else l ++ [x]

/-- Python `set(l)`: collapses duplicates.  Only membership and cardinality
are modelled faithfully; CPython 2 iterates a set in hash order, and the
model fixes the `List.dedup` order instead. -/
def pySet {α : Type} [DecidableEq α] (l : List α) : List α := l.dedup

/-- The mutable state of an `IntroducerClient`:
configuration (`nickname`, `my_version`, `oldest_supported`, `app_versions`),
the connection (`publisher`, as `connected_to_introducer` sees it),
`_published_announcements`, `_local_subscribers` (callbacks as opaque ids;
extra args elided), `_subscribed_service_names`, `_subscriptions` (in-flight),
`_current_announcements` keyed by `(service-name, nodeid)`, the queue of
`eventually`-scheduled callback invocations `(cb, nodeid, ann_d)`, and the
clock read by `time.time()`. -/
structure CState where
  nickname : String
  my_version : String
  oldest_supported : String
  app_versions : List (String × String)
  publisher : Bool
  published_announcements : List (String × SignedAnn)
  local_subscribers : List (String × Nat)
  subscribed_service_names : List String
  subscriptions : List String
  current_announcements : List ((String × String) × (AnnD × Option String × Nat))
  pending : List (Nat × String × AnnD)
  now : Nat
deriving DecidableEq

/-- `connected_to_introducer()`: `bool(self._publisher)`. -/
def connected_to_introducer (s : CState) : Bool := s.publisher

/-- The `eventually(cb, nodeid, ann_d, *args, **kwargs)` fan-out loop at the
end of `_process_announcement`: one scheduled invocation per subscriber
whose service name matches, in subscriber-registration order. -/
def matching_notifications (subs : List (String × Nat))
    (service_name nodeid : String) (ann_d : AnnD) : List (Nat × String × AnnD) :=
  subs.filterMap (fun p =>
    if p.1 = service_name then some (p.2, nodeid, ann_d) else none)

/-- `_process_announcement(ann_d, key)`: drop announcements for services not
subscribed to; compute the index (`some PyErr.AssertionError` models the
locator-format assertion escaping); drop exact duplicates before touching the
table; otherwise store `(ann_d, key, now)` at the index and schedule one
notification per matching local subscriber. -/
def process_announcement (ann_d : AnnD) (key : Option String) (s : CState) :
    CState × Option PyErr :=
  let service_name := ann_d.serviceName
  if service_name ∈ s.subscribed_service_names then
    match make_index ann_d key with
    | none => (s, some PyErr.AssertionError)
    | some index =>
        if (dictGet s.current_announcements index).map (fun e => e.1) = some ann_d then
          (s, none)
        else
          ({ s with
              current_announcements :=
                dictInsert s.current_announcements index (ann_d, key, s.now),
              pending := s.pending ++
                matching_notifications s.local_subscribers service_name index.2 ann_d },
           none)
  else (s, none)

/-- `got_announcements(announcements)`: decodes each element with `unsign`;
`except BadSignatureError` skips that element and continues; any other
exception (notably `UnknownKeyError`, which the source does not catch, and
the locator assertion) propagates, ending the batch with the state mutated
so far. -/
def got_announcements : List SignedAnn → CState → CState × Option PyErr
  | [], s => (s, none)
  | ann_s :: rest, s =>
      match unsign ann_s with
      | Except.error PyErr.BadSignatureError => got_announcements rest s
      | Except.error e => (s, some e)
      | Except.ok (ann_d, key) =>
          match process_announcement ann_d key s with
          | (s', none) => got_announcements rest s'
          | (s', some e) => (s', some e)

/-- `_maybe_subscribe()`: a no-op when disconnected; otherwise sends a
subscribe RPC for every wanted service name not already in flight and adds
it to `_subscriptions` (the RPCs themselves are external effects). -/
def maybe_subscribe (s : CState) : CState :=
  if s.publisher then
    { s with subscriptions := s.subscribed_service_names.foldl pySetAdd s.subscriptions }
  else s

/-- `subscribe_to(service_name, cb)`: registers the local subscriber, adds
the service name to the wanted set, runs `_maybe_subscribe`, then schedules
(via `eventually`) a replay of every table entry whose service name matches.
The replay iterates the table dict; the model uses the list order (CPython 2
hash order is not modelled). -/
def subscribe_to (service_name : String) (cb : Nat) (s : CState) : CState :=
  let s1 := { s with
    local_subscribers := s.local_subscribers ++ [(service_name, cb)],
    subscribed_service_names := pySetAdd s.subscribed_service_names service_name }
  let s2 := maybe_subscribe s1
  { s2 with pending := s2.pending ++
      s2.current_announcements.filterMap (fun e =>
        if e.1.1 = service_name then some (cb, e.1.2, e.2.1) else none) }

/-- `create_announcement(furl, service_name, remoteinterface_name, signing_key)`. -/
def create_announcement (s : CState) (furl service_name ri_name : String)
    (signing_key : Option String) : SignedAnn :=
  sign { version := 0, serviceName := service_name, furl := furl,
         riName := ri_name, nickname := s.nickname,
         appVersions := s.app_versions, myVersion := s.my_version,
         oldestSupported := s.oldest_supported } signing_key

/-- `_maybe_publish()`: re-sends every published announcement over RPC when
connected; it mutates none of the modelled state (only debug counters and
outbound calls). -/
def maybe_publish (s : CState) : CState := s

/-- `publish(furl, service_name, remoteinterface_name, signing_key)`: stores
the signed announcement in `_published_announcements` keyed by service name,
then `_maybe_publish`. -/
def publish (furl service_name ri_name : String) (signing_key : Option String)
    (s : CState) : CState :=
  maybe_publish { s with
    published_announcements := dictInsert s.published_announcements service_name
      (create_announcement s furl service_name ri_name signing_key) }

/-- `_disconnected()`: `self._publisher = None; self._subscriptions.clear()`. -/
def _disconnected (s : CState) : CState :=
  { s with publisher := false, subscriptions := [] }

/-- `ClientAdapter_v1.remote_announce(announcements)`: converts each legacy
tuple to the v2 form, collapses the results into a Python set, and hands
them to the common entry point `got_announcements`. -/
def remote_announce (announcements : List AnnT) (s : CState) : CState × Option PyErr :=
  got_announcements (pySet (announcements.map convert_announcement_v1_to_v2)) s

/-! ### String helper lemmas -/

theorem data_append (a b : String) : (a ++ b).data = a.data ++ b.data := by
  cases a; cases b; rfl

theorem pyTruthy_append_v0 (x : String) : pyTruthy (some ("v0-" ++ x)) = true := by
  cases x; rfl

theorem pyStartswith_append_v0 (x : String) :
    pyStartswith ("v0-" ++ x) "v0-" = true := by
  cases x with
  | mk d =>
    show List.isPrefixOf ['v', '0', '-'] ('v' :: '0' :: '-' :: d) = true
    simp [List.isPrefixOf]

theorem pyDrop_append_v0 (x : String) : pyDrop 3 ("v0-" ++ x) = x := by
  cases x; rfl

/-! ### Dictionary lemmas -/

theorem dictGet_dictInsert_self {κ ν : Type} [DecidableEq κ]
    (d : List (κ × ν)) (k : κ) (v : ν) :
    dictGet (dictInsert d k v) k = some v := by
  induction d with
  | nil => simp [dictGet, dictInsert]
  | cons p rest ih =>
    by_cases h : p.1 = k <;> simp [dictGet, dictInsert, h, ih]

theorem dictGet_dictInsert_isSome {κ ν : Type} [DecidableEq κ]
    (d : List (κ × ν)) (k k' : κ) (v : ν)
    (h : (dictGet d k).isSome = true) :
    (dictGet (dictInsert d k' v) k).isSome = true := by
  induction d with
  | nil => simp [dictGet] at h
  | cons p rest ih =>
    simp only [dictInsert]
    by_cases hpk : p.1 = k'
    · simp only [if_pos hpk, dictGet]
      by_cases hk : p.1 = k
      · simp [hk]
      · simp only [if_neg hk, dictGet] at h ⊢
        exact h
    · simp only [if_neg hpk, dictGet]
      by_cases hk : p.1 = k
      · simp [hk]
      · simp only [if_neg hk, dictGet] at h ⊢
        exact ih h

/-! ### Concrete sample data used by the witnesses and counterexamples -/

/-- A sample unsigned "storage" record whose locator parses to tubid "abc". -/
def r1 : AnnD :=
  { version := 0, serviceName := "storage", furl := "pb://abc@tcp:1",
    riName := "RIStorage", nickname := "n1", appVersions := [],
    myVersion := "1.0", oldestSupported := "1.0" }

/-- A second sample record with a distinct locator (tubid "ghi"). -/
def r3 : AnnD := { r1 with furl := "pb://ghi@tcp:3", nickname := "n3" }

/-- A sample legacy v1 6-tuple. -/
def t0 : AnnT := ("pb://abc@tcp:1", "storage", "RIStorage", "n1", "1.0", "1.0")

/-- A connected client subscribed to "storage" with one local subscriber and
an empty announcement table. -/
def s0 : CState :=
  { nickname := "me", my_version := "1", oldest_supported := "1",
    app_versions := [], publisher := true, published_announcements := [],
    local_subscribers := [("storage", 0)],
    subscribed_service_names := ["storage"], subscriptions := [],
    current_announcements := [], pending := [], now := 100 }

/-- The client `s0` after one "storage" announcement has been tabled. -/
def sA : CState :=
  { s0 with current_announcements := [(("storage", "abc"), (r1, none, 50))] }

/-! ### Claim theorems -/

/-- Claim C7: `_disconnected` clears the in-flight subscription set and makes
the connection disconnected, and every other piece of client state — the
announcement table, the published set, the local subscribers, the wanted
service names, the pending deliveries and the configuration — is untouched. -/
theorem disconnected_frame (s : CState) :
    (_disconnected s).subscriptions = []
  ∧ connected_to_introducer (_disconnected s) = false
  ∧ (_disconnected s).current_announcements = s.current_announcements
  ∧ (_disconnected s).published_announcements = s.published_announcements
  ∧ (_disconnected s).local_subscribers = s.local_subscribers
  ∧ (_disconnected s).subscribed_service_names = s.subscribed_service_names
  ∧ (_disconnected s).pending = s.pending
  ∧ (_disconnected s).nickname = s.nickname
  ∧ (_disconnected s).my_version = s.my_version
  ∧ (_disconnected s).oldest_supported = s.oldest_supported
  ∧ (_disconnected s).app_versions = s.app_versions
  ∧ (_disconnected s).now = s.now :=
  ⟨rfl, rfl, rfl, rfl, rfl, rfl, rfl, rfl, rfl, rfl, rfl, rfl⟩

/-- Claim C8: round-trip of the codec.  For every record `R` and signing key
`K`, `unsign (sign R K)` succeeds and returns `R` together with the
verifying-key token of `K` (the serialized verifying key as carried on the
wire, without the "v0-" marker); for the unsigned case it returns
`(R, none)`. -/
theorem sign_unsign_roundtrip (r : AnnD) (k : String) :
    unsign (sign r (some k)) =
      Except.ok (r, some (base32_b2a (vk_to_string (get_verifying_key k))))
  ∧ unsign (sign r none) = Except.ok (r, none) := by
  constructor
  · simp only [sign, unsign, base32_b2a, base32_a2b, vk_to_string,
      get_verifying_key, VerifyingKey_from_string, ecdsa_sign, ecdsa_verify,
      pyTruthy_append_v0, pyStartswith_append_v0, pyDrop_append_v0,
      Option.getD_some, Bool.and_self, if_true, beq_self_eq_true]
  · simp [sign, unsign, pyTruthy]

/-- Claim C9: converting a legacy 6-tuple to the v2 signed form and back
yields the tuple unchanged (the version-0 assertion in the v2-to-v1
direction succeeds on the converted form). -/
theorem convert_v1_v2_roundtrip (t : AnnT) :
    convert_announcement_v2_to_v1 (convert_announcement_v1_to_v2 t) = some t := by
  obtain ⟨furl, sn, ri, nn, ver, old⟩ := t
  rfl

/-- Claim C5: `make_index` returns `(service-name, identityToken)` for a
signed announcement (truthy key token) and `(service-name, tubid)` parsed
from the locator otherwise, failing (the locator-format assertion) when the
locator does not match `pb://<word>@`; the index depends only on the
service name, the key and the locator, so the same service instance gets
the same index whether it arrived on the v2 wire or was converted from the
v1 wire (which always yields an unsigned triple preserving service name and
locator). -/
theorem make_index_spec (r r' : AnnD) (k : Option String) (t : AnnT) :
    (pyTruthy k = true → make_index r k = some (r.serviceName, k.getD ""))
  ∧ (pyTruthy k = false →
        make_index r k = (get_tubid_string r.furl).map (fun tubid => (r.serviceName, tubid)))
  ∧ (pyTruthy k = false → get_tubid_string r.furl = none → make_index r k = none)
  ∧ (r.serviceName = r'.serviceName → r.furl = r'.furl →
        make_index r k = make_index r' k)
  ∧ unsign (convert_announcement_v1_to_v2 t) =
      Except.ok ((convert_announcement_v1_to_v2 t).1, none)
  ∧ ((convert_announcement_v1_to_v2 t).1.serviceName = t.2.1
      ∧ (convert_announcement_v1_to_v2 t).1.furl = t.1) := by
  obtain ⟨furl, sn, ri, nn, ver, old⟩ := t
  refine ⟨fun hk => ?_, fun hk => ?_, fun hk hfurl => ?_, fun hsn hfurl => ?_, rfl, rfl, rfl⟩
  · simp [make_index, hk]
  · simp [make_index, get_tubid_string_from_ann_d, hk]
  · simp [make_index, get_tubid_string_from_ann_d, hk, hfurl]
  · simp [make_index, get_tubid_string_from_ann_d, hsn, hfurl]

/-- Witness for C5: concrete instantiations of every case of
`make_index_spec` — a signed index, an unsigned index derived from the
locator, the format failure, and index-equality across records that agree
on service name and locator. -/
theorem make_index_spec_witness :
    make_index r1 (some "key1") = some (r1.serviceName, (some "key1").getD "")
  ∧ make_index r3 none = (get_tubid_string r3.furl).map (fun tubid => (r3.serviceName, tubid))
  ∧ make_index { r1 with furl := "http://x" } none = none
  ∧ make_index r1 none = make_index { r1 with nickname := "other" } none :=
  ⟨(make_index_spec r1 r1 (some "key1") t0).1 (by decide),
   (make_index_spec r3 r3 none t0).2.1 (by decide),
   (make_index_spec { r1 with furl := "http://x" } r1 none t0).2.2.1 (by decide) (by decide),
   (make_index_spec r1 { r1 with nickname := "other" } none t0).2.2.2.1 rfl rfl⟩

/-- Counterexample for C2 as stated: a key can be present (truthy) while the
signature is absent, and then `unsign` performs no verification and silently
treats the announcement as unsigned, returning a `none` token; likewise a
present signature that does not start with "v0-" raises no
`UnsupportedKeyVersion` when the key slot is empty.  The claim requires
verification (or an error) whenever a key is present. -/
theorem unsign_present_key_counterexample :
    pyTruthy (some "v0-k") = true
  ∧ unsign (r1, none, some "v0-k") = Except.ok (r1, none)
  ∧ pyTruthy (some "x-sig") = true
  ∧ unsign (r1, some "x-sig", none) = Except.ok (r1, none) := by decide

/-- Claim C2 as amended: `unsign`'s gate is that BOTH the signature and the
key are present and non-empty.  In that case a missing "v0-" marker on
either string fails with `UnsupportedKeyVersion` (`UnknownKeyError`), a
failed verification against the embedded key fails with `BadSignature`, a
successful verification returns the record with the raw key token stripped
of its marker, and the result is never the unsigned form; when the
signature and key are not both present, the record is returned unsigned
without verification. -/
theorem unsign_spec (msg : AnnD) (sig key : Option String) :
    ((pyTruthy sig = false ∨ pyTruthy key = false) →
        unsign (msg, sig, key) = Except.ok (msg, none))
  ∧ (pyTruthy sig = true → pyTruthy key = true →
        (pyStartswith (sig.getD "") "v0-" = false →
            unsign (msg, sig, key) = Except.error PyErr.UnknownKeyError)
      ∧ (pyStartswith (sig.getD "") "v0-" = true →
         pyStartswith (key.getD "") "v0-" = false →
            unsign (msg, sig, key) = Except.error PyErr.UnknownKeyError)
      ∧ (pyStartswith (sig.getD "") "v0-" = true →
         pyStartswith (key.getD "") "v0-" = true →
            (ecdsa_verify (pyDrop 3 (key.getD "")) (pyDrop 3 (sig.getD "")) msg = false →
                unsign (msg, sig, key) = Except.error PyErr.BadSignatureError)
          ∧ (ecdsa_verify (pyDrop 3 (key.getD "")) (pyDrop 3 (sig.getD "")) msg = true →
                unsign (msg, sig, key) = Except.ok (msg, some (pyDrop 3 (key.getD "")))))
      ∧ ∀ p : AnnD, unsign (msg, sig, key) ≠ Except.ok (p, none)) := by
  constructor
  · rintro (hs | hk)
    · simp [unsign, hs]
    · simp [unsign, hk]
  · intro hs hk
    refine ⟨fun h1 => ?_, fun h1 h2 => ?_, fun h1 h2 => ⟨fun h3 => ?_, fun h3 => ?_⟩, ?_⟩
    · simp [unsign, hs, hk, h1]
    · simp [unsign, hs, hk, h1, h2]
    · simp [unsign, hs, hk, h1, h2, h3, base32_a2b, VerifyingKey_from_string]
    · simp [unsign, hs, hk, h1, h2, h3, base32_a2b, VerifyingKey_from_string]
    · intro p
      by_cases h1 : pyStartswith (sig.getD "") "v0-"
      · by_cases h2 : pyStartswith (key.getD "") "v0-"
        · by_cases h3 : ecdsa_verify (VerifyingKey_from_string (base32_a2b (pyDrop 3 (key.getD ""))))
              (base32_a2b (pyDrop 3 (sig.getD ""))) msg
          · simp [unsign, hs, hk, h1, h2, h3]
          · simp [unsign, hs, hk, h1, h2, h3]
        · simp [unsign, hs, hk, h1, h2]
      · simp [unsign, hs, hk, h1]

/-- Witness for C2 (amended): concrete runs of every branch of
`unsign_spec` — a valid signed triple accepted with its key token, an
unsigned triple, an unrecognized version marker, and a signature that fails
verification. -/
theorem unsign_spec_witness :
    unsign (r1, some ("v0-" ++ mkSig "k1" r1), some "v0-k1") =
      Except.ok (r1, some (pyDrop 3 ((some "v0-k1").getD "")))
  ∧ unsign (r1, none, none) = Except.ok (r1, none)
  ∧ unsign (r1, some "x-sig", some "v0-k") = Except.error PyErr.UnknownKeyError
  ∧ unsign (r1, some "v0-x", some "v0-k") = Except.error PyErr.BadSignatureError :=
  ⟨((unsign_spec r1 (some ("v0-" ++ mkSig "k1" r1)) (some "v0-k1")).2 (by decide)
      (by decide)).2.2.1 (by decide) (by decide) |>.2 (by decide),
   (unsign_spec r1 none none).1 (Or.inl (by decide)),
   ((unsign_spec r1 (some "x-sig") (some "v0-k")).2 (by decide) (by decide)).1 (by decide),
   ((unsign_spec r1 (some "v0-x") (some "v0-k")).2 (by decide) (by decide)).2.2.1
      (by decide) (by decide) |>.1 (by decide)⟩

/-- Counterexample for C1 as stated: in a batch of three announcements whose
second element fails decoding with `UnsupportedKeyVersion` (a signature not
starting with "v0-"), the error escapes `got_announcements` — the source
catches only `BadSignatureError` — so the third element is NOT processed:
only the first element's notification is delivered, although the same batch
without the bad element delivers both. -/
theorem got_announcements_unknownkey_counterexample :
    (got_announcements
        [(r1, none, none), (r1, some "x-sig", some "v0-k"), (r3, none, none)] s0).2
      = some PyErr.UnknownKeyError
  ∧ (got_announcements
        [(r1, none, none), (r1, some "x-sig", some "v0-k"), (r3, none, none)] s0).1.pending
      = [(0, "abc", r1)]
  ∧ unsign (r3, none, none) = Except.ok (r3, none)
  ∧ (got_announcements [(r1, none, none), (r3, none, none)] s0).1.pending
      = [(0, "abc", r1), (0, "ghi", r3)] := by decide

/-- Claim C1 as amended: only a `BadSignature` decoding failure is isolated.
An element of an inbound batch that fails `unsign` with
`BadSignatureError` is skipped, every other element of the batch is
processed exactly as if the bad element were absent, and the relative order
of the surviving elements is preserved; an `UnsupportedKeyVersion`
(`UnknownKeyError`) failure instead propagates and aborts the rest of the
batch. -/
theorem got_announcements_badsig_isolation (pre post : List SignedAnn)
    (bad : SignedAnn) (s : CState)
    (h : unsign bad = Except.error PyErr.BadSignatureError) :
    got_announcements (pre ++ bad :: post) s = got_announcements (pre ++ post) s := by
  induction pre generalizing s with
  | nil => simp only [List.nil_append, got_announcements, h]
  | cons a pre ih =>
    simp only [List.cons_append, got_announcements]
    cases hu : unsign a with
    | error e => cases e <;> simp [ih]
    | ok p =>
      obtain ⟨ann_d, key⟩ := p
      cases hp : process_announcement ann_d key s with
      | mk s' err => cases err <;> simp [ih]

/-- Witness for C1 (amended): a concrete two-element batch whose second
element carries a corrupted signature is processed exactly like the
one-element batch without it. -/
theorem got_announcements_badsig_isolation_witness :
    got_announcements [(r3, none, none), (r1, some "v0-x", some "v0-k")] s0
      = got_announcements [(r3, none, none)] s0 :=
  got_announcements_badsig_isolation [(r3, none, none)] []
    (r1, some "v0-x", some "v0-k") s0 (by decide)

/-- Claim C3: an announcement whose index is already in the table with a
field-for-field equal stored record is dropped — the state (table,
timestamps, pending notifications) is unchanged; consequently delivering
the same announcement twice from a state where it is new notifies each
matching subscriber exactly once (one scheduled notification per matching
subscriber entry), the second delivery changing nothing. -/
theorem process_announcement_dedup (s : CState) (r : AnnD) (k : Option String)
    (idx : String × String) (hidx : make_index r k = some idx) :
    ((dictGet s.current_announcements idx).map (fun e => e.1) = some r →
        process_announcement r k s = (s, none))
  ∧ (r.serviceName ∈ s.subscribed_service_names →
     (dictGet s.current_announcements idx).map (fun e => e.1) ≠ some r →
        (process_announcement r k s).1.pending
          = s.pending ++ matching_notifications s.local_subscribers r.serviceName idx.2 r
      ∧ process_announcement r k (process_announcement r k s).1
          = ((process_announcement r k s).1, none)) := by
  constructor
  · intro hdup
    by_cases hsub : r.serviceName ∈ s.subscribed_service_names
    · simp [process_announcement, hsub, hidx, hdup]
    · simp [process_announcement, hsub]
  · intro hsub hnew
    have h1 : process_announcement r k s =
        ({ s with
            current_announcements := dictInsert s.current_announcements idx (r, k, s.now),
            pending := s.pending ++
              matching_notifications s.local_subscribers r.serviceName idx.2 r },
         none) := by
      simp [process_announcement, hsub, hidx, hnew]
    rw [h1]
    exact ⟨rfl, by simp [process_announcement, hsub, hidx, dictGet_dictInsert_self]⟩

/-- Witness for C3: concretely, re-delivering `r1` to a client that already
stores it is a no-op, and a fresh delivery to `s0` schedules exactly the
matching notifications, after which a second delivery changes nothing. -/
theorem process_announcement_dedup_witness :
    process_announcement r1 none sA = (sA, none)
  ∧ (process_announcement r1 none s0).1.pending
      = s0.pending ++ matching_notifications s0.local_subscribers r1.serviceName "abc" r1
  ∧ process_announcement r1 none (process_announcement r1 none s0).1
      = ((process_announcement r1 none s0).1, none) :=
  ⟨(process_announcement_dedup sA r1 none ("storage", "abc") (by decide)).1 (by decide),
   ((process_announcement_dedup s0 r1 none ("storage", "abc") (by decide)).2
      (by decide) (by decide)).1,
   ((process_announcement_dedup s0 r1 none ("storage", "abc") (by decide)).2
      (by decide) (by decide)).2⟩

/-! Helper lemmas for the never-shrinks invariant. -/

theorem process_announcement_table_mono (r : AnnD) (k : Option String)
    (s : CState) (idx : String × String)
    (h : (dictGet s.current_announcements idx).isSome = true) :
    (dictGet (process_announcement r k s).1.current_announcements idx).isSome = true := by
  by_cases hsub : r.serviceName ∈ s.subscribed_service_names
  · cases hmk : make_index r k with
    | none => simpa [process_announcement, hsub, hmk] using h
    | some index =>
      by_cases hdup : (dictGet s.current_announcements index).map (fun e => e.1) = some r
      · simpa [process_announcement, hsub, hmk, hdup] using h
      · simp only [process_announcement, hsub, hmk, hdup, if_pos, if_neg, if_false]
        exact dictGet_dictInsert_isSome _ _ _ _ h
  · simpa [process_announcement, hsub] using h

theorem got_announcements_table_mono (anns : List SignedAnn) :
    ∀ (s : CState) (idx : String × String),
    (dictGet s.current_announcements idx).isSome = true →
    (dictGet (got_announcements anns s).1.current_announcements idx).isSome = true := by
  induction anns with
  | nil => intro s idx h; simpa [got_announcements] using h
  | cons a rest ih =>
    intro s idx h
    simp only [got_announcements]
    cases hu : unsign a with
    | error e =>
      cases e
      · simpa using h
      · exact ih s idx h
      · simpa using h
    | ok p =>
      obtain ⟨ann_d, key⟩ := p
      have hm := process_announcement_table_mono ann_d key s idx h
      cases hp : process_announcement ann_d key s with
      | mk s' err =>
        rw [hp] at hm
        cases err
        · simpa [hp] using ih s' idx hm
        · simpa [hp] using hm

theorem subscribe_to_table_eq (svc : String) (cb : Nat) (s : CState) :
    (subscribe_to svc cb s).current_announcements = s.current_announcements := by
  simp only [subscribe_to, maybe_subscribe]
  split <;> rfl

/-- Claim C6: the announcement table never shrinks.  Whatever index is
present in the table stays present across every operation of the client:
processing an inbound batch, subscribing, publishing, and the disconnect
notification. -/
theorem table_never_shrinks (s : CState) (anns : List SignedAnn)
    (svc : String) (cb : Nat) (furl sname riname : String) (sk : Option String)
    (idx : String × String)
    (h : (dictGet s.current_announcements idx).isSome = true) :
    (dictGet (got_announcements anns s).1.current_announcements idx).isSome = true
  ∧ (dictGet (subscribe_to svc cb s).current_announcements idx).isSome = true
  ∧ (dictGet (publish furl sname riname sk s).current_announcements idx).isSome = true
  ∧ (dictGet (_disconnected s).current_announcements idx).isSome = true :=
  ⟨got_announcements_table_mono anns s idx h,
   by rw [subscribe_to_table_eq]; exact h, h, h⟩

/-- Witness for C6: the concrete entry of `sA` survives a batch, a new
subscription, a publication and a disconnect. -/
theorem table_never_shrinks_witness :
    (dictGet (got_announcements [(r3, none, none)] sA).1.current_announcements
        ("storage", "abc")).isSome = true
  ∧ (dictGet (subscribe_to "blocks" 1 sA).current_announcements
        ("storage", "abc")).isSome = true
  ∧ (dictGet (publish "pb://x@t" "svc" "RIx" none sA).current_announcements
        ("storage", "abc")).isSome = true
  ∧ (dictGet (_disconnected sA).current_announcements
        ("storage", "abc")).isSome = true :=
  table_never_shrinks sA [(r3, none, none)] "blocks" 1 "pb://x@t" "svc" "RIx"
    none ("storage", "abc") (by decide)

/-- Counterexample for C10 as stated: the claim asserts that the processing
order of the distinct elements is NOT the batch's arrival order, but for a
one-element legacy batch the set iterates in arrival order whatever the set
implementation: `remote_announce` on `[t0]` processes exactly the arrival
sequence. -/
theorem remote_announce_order_counterexample :
    remote_announce [t0] s0 = got_announcements [convert_announcement_v1_to_v2 t0] s0
  ∧ pySet [convert_announcement_v1_to_v2 t0, convert_announcement_v1_to_v2 t0]
      = [convert_announcement_v1_to_v2 t0] := by
  constructor
  · rfl
  · decide

/-- Claim C10 as amended: the v1 adapter converts the legacy batch to a set
before handing it to `got_announcements`, so duplicate converted tuples are
collapsed — the handed-over batch has no duplicates and contains exactly
the distinct converted elements; the iteration order of the set is not
specified by the source (the model fixes one). -/
theorem remote_announce_batch_dedup (announcements : List AnnT) :
    (pySet (announcements.map convert_announcement_v1_to_v2)).Nodup
  ∧ ∀ a : SignedAnn,
      a ∈ pySet (announcements.map convert_announcement_v1_to_v2)
        ↔ a ∈ announcements.map convert_announcement_v1_to_v2 :=
  ⟨List.nodup_dedup _, fun _ => List.mem_dedup⟩

end Introducer
